import Mathlib

/-!
Verification of the Azure Text Analytics dashboard (`src/app.py`) against its
natural-language specification.

The program is a single-page dashboard: given user text and credentials it
sequentially issues five remote analysis operations (sentiment, key phrases,
language detection, entity recognition, PII detection) against a batch of one
document, and maps each response into display records.

Shallow embedding choices:
* The remote service is opaque; we model it as a record of five fallible
  operations (`Service`), each taking the `documents` batch and returning
  either a response list or a raised exception (`Except String _`), exactly
  the call shapes used in `app.py`.
* Python's `result_list[0]` indexing (which raises `IndexError` on an empty
  list) is `head0`.
* The `try ... except Exception` block wrapping steps 1-4 and the inner bare
  `try ... except` wrapping the PII step are modelled by the match structure
  of `analyzeWithTrace`: any failure among steps 1-4 aborts the cycle with a
  fatal `AnalysisError`, while any failure inside the PII block (the remote
  fetch or the subsequent processing/display of its response, both of which
  sit inside the inner `try`, lines 158-178) resolves to
  `PiiOutcome.Unavailable`.
* The in-Python processing and rendering of a successfully fetched PII
  response may itself raise (e.g. a malformed field); `analyzeWithTrace` is
  therefore parametric in that fallible processing step `processPii`, and
  the well-typed program instantiates it with `processPiiResult` (which, on
  well-typed responses, cannot fail).
* Confidence scores are modelled as rationals; the code performs no
  arithmetic on them, only display formatting.
* Every remote invocation is recorded, in issue order and with the document
  batch passed, in a trace of `RemoteCall`s, so sequencing, fail-fast, and
  batch-size-one properties are statable.
-/

namespace TextAnalysis

/-- The three per-class confidence scores returned with a sentiment label
(`sentiment_result.confidence_scores` in `app.py`). -/
structure ConfidenceScores where
  positive : ℚ
  negative : ℚ
  neutral : ℚ
deriving DecidableEq

/-- One document's response from the remote sentiment operation:
`sentiment_result.sentiment` (a provider-assigned string label, not locally
validated) and its confidence scores. -/
structure SentimentResponse where
  sentiment : String
  confidence_scores : ConfidenceScores
deriving DecidableEq

/-- One document's response from the key-phrase extraction operation:
`key_phrases_result.key_phrases`. -/
structure KeyPhrasesResponse where
  key_phrases : List String
deriving DecidableEq

/-- The primary language record inside a language-detection response
(`language_result.primary_language`). -/
structure DetectedLanguage where
  name : String
  iso6391_name : String
  confidence_score : ℚ
deriving DecidableEq

/-- One document's response from the language-detection operation. -/
structure LanguageResponse where
  primary_language : DetectedLanguage
deriving DecidableEq

/-- A named entity inside an entity-recognition response. -/
structure Entity where
  text : String
  category : String
  confidence_score : ℚ
deriving DecidableEq

/-- One document's response from the entity-recognition operation
(`entities_result.entities`). -/
structure EntitiesResponse where
  entities : List Entity
deriving DecidableEq

/-- A PII entity inside a PII-recognition response. -/
structure PiiEntity where
  text : String
  category : String
deriving DecidableEq

/-- One document's response from the PII-recognition operation
(`pii_result.entities`, `pii_result.redacted_text`). -/
structure PiiResponse where
  entities : List PiiEntity
  redacted_text : String
deriving DecidableEq

/-- The opaque remote text-analytics service: the five client operations
invoked in `app.py`, each taking the `documents` batch and either returning
a list of per-document responses or raising (modelled as `Except.error` with
the exception's message). -/
structure Service where
  analyze_sentiment : List String → Except String (List SentimentResponse)
  extract_key_phrases : List String → Except String (List KeyPhrasesResponse)
  detect_language : List String → Except String (List LanguageResponse)
  recognize_entities : List String → Except String (List EntitiesResponse)
  recognize_pii_entities : List String → Except String (List PiiResponse)

/-- Python's `xs[0]`: the first element, raising `IndexError` when empty. -/
def head0 {α : Type} (xs : List α) : Except String α :=
  match xs with
  | [] => Except.error "IndexError: list index out of range"
  | x :: _ => Except.ok x

/-- The five remote operations, used to label trace entries. -/
inductive RemoteOp where
  | sentiment
  | keyPhrases
  | language
  | entities
  | pii
deriving DecidableEq

/-- One issued remote invocation: which operation, and the document batch it
was called with. -/
structure RemoteCall where
  op : RemoteOp
  documents : List String
deriving DecidableEq

/-- `client.analyze_sentiment(documents)[0]`. -/
def fetchSentiment (svc : Service) (documents : List String) :
    Except String SentimentResponse :=
  match svc.analyze_sentiment documents with
  | Except.error e => Except.error e
  | Except.ok results => head0 results

/-- `client.extract_key_phrases(documents)[0]`. -/
def fetchKeyPhrases (svc : Service) (documents : List String) :
    Except String KeyPhrasesResponse :=
  match svc.extract_key_phrases documents with
  | Except.error e => Except.error e
  | Except.ok results => head0 results

/-- `client.detect_language(documents)[0]`. -/
def fetchLanguage (svc : Service) (documents : List String) :
    Except String LanguageResponse :=
  match svc.detect_language documents with
  | Except.error e => Except.error e
  | Except.ok results => head0 results

/-- `client.recognize_entities(documents)[0]`. -/
def fetchEntities (svc : Service) (documents : List String) :
    Except String EntitiesResponse :=
  match svc.recognize_entities documents with
  | Except.error e => Except.error e
  | Except.ok results => head0 results

/-- `client.recognize_pii_entities(documents)[0]` (the first statement inside
the inner PII `try` block). -/
def fetchPii (svc : Service) (documents : List String) :
    Except String PiiResponse :=
  match svc.recognize_pii_entities documents with
  | Except.error e => Except.error e
  | Except.ok results => head0 results

/-- The outcome of the PII step, per the spec: a successful detection with
entities and the provider's redacted text (`Detected`), a successful call
that found nothing (`NoneFound`, the spec's `None`: the code path showing
"✅ No personal information detected"), or the non-fatal unavailable state
(`Unavailable`: the bare `except` path showing "PII detection not available
for this language"). -/
inductive PiiOutcome where
  | Detected (entities : List PiiEntity) (redacted_text : String)
  | NoneFound
  | Unavailable
deriving DecidableEq

/-- The fatal error of the outer `except Exception as e:` handler: the
generic error message built from the exception plus the fixed credentials
hint (`app.py` lines 180-182). -/
structure AnalysisError where
  message : String
  hint : String
deriving DecidableEq

/-- `st.error(f"❌ Error: {str(e)}")` plus
`st.info("💡 Make sure your credentials are correct")`. -/
def fatalError (e : String) : AnalysisError :=
  { message := "❌ Error: " ++ e
    hint := "💡 Make sure your credentials are correct" }

/-- The emoji lookup `sentiment_emoji.get(sentiment, '😐')`: a total
dictionary lookup over the four known labels with the neutral emoji as the
default for any other label. -/
def sentiment_emoji (sentiment : String) : String :=
  if sentiment = "positive" then "😊"
  else if sentiment = "negative" then "😞"
  else if sentiment = "neutral" then "😐"
  else if sentiment = "mixed" then "🤔"
  else "😐"

/-- The normalized per-cycle report assembled from the five responses:
sentiment label and scores as returned, the rendered sentiment heading
(`f"### ... {sentiment.upper()}"`), key phrases and entities truncated to
the first 10 for display (`[:10]` at lines 115 and 142), the primary
language, and the PII outcome. -/
structure AnalysisReport where
  sentiment_label : String
  sentiment_display : String
  scores : ConfidenceScores
  keyPhrases : List String
  language : DetectedLanguage
  entities : List Entity
  pii : PiiOutcome
deriving DecidableEq

/-- Processing of a successfully fetched PII response (`app.py` lines
161-176): a non-empty entity list is reported as a detection with the
provider's redacted text, an empty list as the distinct
"no personal information detected" state. On well-typed responses this
cannot fail; it instantiates the fallible `processPii` parameter of
`analyzeWithTrace`. -/
def processPiiResult (pii_result : PiiResponse) : Except String PiiOutcome :=
  if pii_result.entities.isEmpty then Except.ok PiiOutcome.NoneFound
  else Except.ok (PiiOutcome.Detected pii_result.entities pii_result.redacted_text)

/-- The body of the outer `try` block of `app.py` (lines 70-178), with the
trace of issued remote calls. Steps 1-4 run in order; the first exception
among them aborts the rest and resolves to the fatal `AnalysisError` of the
outer handler. After steps 1-4 succeed, the PII block runs under its own
bare `except`: a failure of the remote PII fetch, or of the subsequent
processing/display of its response (the fallible `processPii` parameter),
resolves to `PiiOutcome.Unavailable` without affecting the overall success.
The second component records every remote invocation actually issued, in
order, with the batch it was passed. -/
def analyzeWithTrace (user_text : String) (svc : Service)
    (processPii : PiiResponse → Except String PiiOutcome) :
    Except AnalysisError AnalysisReport × List RemoteCall :=
  let documents := [user_text]
  match fetchSentiment svc documents with
  | Except.error e =>
      (Except.error (fatalError e), [⟨RemoteOp.sentiment, documents⟩])
  | Except.ok sentiment_result =>
    match fetchKeyPhrases svc documents with
    | Except.error e =>
        (Except.error (fatalError e),
          [⟨RemoteOp.sentiment, documents⟩, ⟨RemoteOp.keyPhrases, documents⟩])
    | Except.ok key_phrases_result =>
      match fetchLanguage svc documents with
      | Except.error e =>
          (Except.error (fatalError e),
            [⟨RemoteOp.sentiment, documents⟩, ⟨RemoteOp.keyPhrases, documents⟩,
              ⟨RemoteOp.language, documents⟩])
      | Except.ok language_result =>
        match fetchEntities svc documents with
        | Except.error e =>
            (Except.error (fatalError e),
              [⟨RemoteOp.sentiment, documents⟩, ⟨RemoteOp.keyPhrases, documents⟩,
                ⟨RemoteOp.language, documents⟩, ⟨RemoteOp.entities, documents⟩])
        | Except.ok entities_result =>
          let pii : PiiOutcome :=
            match fetchPii svc documents with
            | Except.error _ => PiiOutcome.Unavailable
            | Except.ok pii_result =>
              match processPii pii_result with
              | Except.error _ => PiiOutcome.Unavailable
              | Except.ok outcome => outcome
          (Except.ok
            { sentiment_label := sentiment_result.sentiment
              sentiment_display :=
                "### " ++ sentiment_emoji sentiment_result.sentiment ++ " "
                  ++ sentiment_result.sentiment.toUpper
              scores := sentiment_result.confidence_scores
              keyPhrases := key_phrases_result.key_phrases.take 10
              language := language_result.primary_language
              entities := entities_result.entities.take 10
              pii := pii },
            [⟨RemoteOp.sentiment, documents⟩, ⟨RemoteOp.keyPhrases, documents⟩,
              ⟨RemoteOp.language, documents⟩, ⟨RemoteOp.entities, documents⟩,
              ⟨RemoteOp.pii, documents⟩])

/-- The program's analysis cycle: `analyzeWithTrace` instantiated with the
well-typed PII processing of `app.py` lines 161-176. -/
def analyze (user_text : String) (svc : Service) :
    Except AnalysisError AnalysisReport × List RemoteCall :=
  analyzeWithTrace user_text svc processPiiResult

/-- The per-cycle UI outcome: `Idle` when no analysis is attempted (the
`elif user_text:` warning or the final `else:` prompt), `Finished` with the
analysis result otherwise. -/
inductive CycleOutcome where
  | Idle (message : String)
  | Finished (result : Except AnalysisError AnalysisReport)

/-- One user-triggered cycle of the right-hand column (`app.py` lines
65-187): the analysis body runs only under
`if user_text and endpoint and api_key:` (Python string truthiness:
non-empty); with text but missing credentials the credentials warning shows,
and with no text the prompt shows — in both cases no remote call is issued.
The button press that triggers the cycle is the external UI event and is not
part of the core. -/
def runCycle (user_text endpoint api_key : String) (svc : Service) :
    CycleOutcome × List RemoteCall :=
  if user_text ≠ "" ∧ endpoint ≠ "" ∧ api_key ≠ "" then
    let r := analyze user_text svc
    (CycleOutcome.Finished r.1, r.2)
  else if user_text ≠ "" then
    (CycleOutcome.Idle "⚠️ Please enter Azure credentials in the sidebar", [])
  else
    (CycleOutcome.Idle "👈 Enter text to analyze", [])

/-- The expected full trace of a cycle in which all five operations are
issued: the five calls in the fixed order, each with the single-document
batch. -/
def fiveCalls (user_text : String) : List RemoteCall :=
  [⟨RemoteOp.sentiment, [user_text]⟩, ⟨RemoteOp.keyPhrases, [user_text]⟩,
    ⟨RemoteOp.language, [user_text]⟩, ⟨RemoteOp.entities, [user_text]⟩,
    ⟨RemoteOp.pii, [user_text]⟩]

/-! Concrete deterministic services used to instantiate the theorems (the
spec's §8 example scenario and small variations of it). -/

/-- The mocked scores of the spec's example scenario. -/
def mockScores : ConfidenceScores := ⟨95/100, 2/100, 3/100⟩

/-- The example text of the spec's example scenario. -/
def sampleText : String := "I absolutely love this product!"

/-- A healthy deterministic service following the spec's example scenario:
positive sentiment, one key phrase, English, no entities, no PII. -/
def mockService : Service :=
  { analyze_sentiment := fun _ => Except.ok [⟨"positive", mockScores⟩]
    extract_key_phrases := fun _ => Except.ok [⟨["product"]⟩]
    detect_language := fun _ => Except.ok [⟨⟨"English", "en", 99/100⟩⟩]
    recognize_entities := fun _ => Except.ok [⟨[]⟩]
    recognize_pii_entities := fun _ => Except.ok [⟨[], sampleText⟩] }

/-- A service whose sentiment operation raises (the spec's 401 scenario). -/
def failSentimentService : Service :=
  { mockService with analyze_sentiment := fun _ => Except.error "401 Unauthorized" }

/-- A healthy service except that the PII operation raises. -/
def failPiiService : Service :=
  { mockService with
      recognize_pii_entities := fun _ => Except.error "language not supported" }

/-- A healthy service returning a sentiment label outside the four known
values. -/
def unknownLabelService : Service :=
  { mockService with
      analyze_sentiment := fun _ => Except.ok [⟨"ecstatic", mockScores⟩] }

/-- A service violating the provider interface invariants: a label outside
the four enum values and confidence scores outside [0,1]. -/
def badScoresService : Service :=
  { mockService with
      analyze_sentiment := fun _ => Except.ok [⟨"ecstatic", ⟨2, -1, 3⟩⟩] }

/-- A healthy service whose PII operation succeeds with a non-empty
detection. -/
def piiDetectedService : Service :=
  { mockService with
      recognize_pii_entities := fun _ =>
        Except.ok [⟨[⟨"John Doe", "Person"⟩], "******** bought a product"⟩] }

/-- Two user-triggered cycles of the same request, run one after the other
against the same service: the source constructs the client and all result
objects fresh inside the handler and mutates no state that survives a cycle,
so the second cycle receives exactly the same inputs as the first. -/
def runTwoCycles (user_text endpoint api_key : String) (svc : Service) :
    (CycleOutcome × List RemoteCall) × (CycleOutcome × List RemoteCall) :=
  let first := runCycle user_text endpoint api_key svc
  let second := runCycle user_text endpoint api_key svc
  (first, second)

/-- Claim C1: if any of the first four operations (sentiment, key phrases,
language detection, entity recognition) raises, the cycle resolves to the
single fatal `AnalysisError` (generic message plus credentials hint), the
remaining steps among 1-4 are not executed (the trace stops at the failing
call), and whenever the cycle ends in the fatal error the PII operation was
never invoked, so no `PiiOutcome` is produced. -/
theorem fail_fast_steps_one_to_four (svc : Service) (user_text : String)
    (pp : PiiResponse → Except String PiiOutcome) :
    (∀ e, fetchSentiment svc [user_text] = Except.error e →
      analyzeWithTrace user_text svc pp =
        (Except.error (fatalError e), [⟨RemoteOp.sentiment, [user_text]⟩]))
    ∧ (∀ s e, fetchSentiment svc [user_text] = Except.ok s →
        fetchKeyPhrases svc [user_text] = Except.error e →
        analyzeWithTrace user_text svc pp =
          (Except.error (fatalError e),
            [⟨RemoteOp.sentiment, [user_text]⟩, ⟨RemoteOp.keyPhrases, [user_text]⟩]))
    ∧ (∀ s k e, fetchSentiment svc [user_text] = Except.ok s →
        fetchKeyPhrases svc [user_text] = Except.ok k →
        fetchLanguage svc [user_text] = Except.error e →
        analyzeWithTrace user_text svc pp =
          (Except.error (fatalError e),
            [⟨RemoteOp.sentiment, [user_text]⟩, ⟨RemoteOp.keyPhrases, [user_text]⟩,
              ⟨RemoteOp.language, [user_text]⟩]))
    ∧ (∀ s k l e, fetchSentiment svc [user_text] = Except.ok s →
        fetchKeyPhrases svc [user_text] = Except.ok k →
        fetchLanguage svc [user_text] = Except.ok l →
        fetchEntities svc [user_text] = Except.error e →
        analyzeWithTrace user_text svc pp =
          (Except.error (fatalError e),
            [⟨RemoteOp.sentiment, [user_text]⟩, ⟨RemoteOp.keyPhrases, [user_text]⟩,
              ⟨RemoteOp.language, [user_text]⟩, ⟨RemoteOp.entities, [user_text]⟩]))
    ∧ (∀ err, (analyzeWithTrace user_text svc pp).1 = Except.error err →
        RemoteOp.pii ∉ (analyzeWithTrace user_text svc pp).2.map RemoteCall.op) := by
  refine ⟨?_, ?_, ?_, ?_, ?_⟩
  · intro e he
    simp [analyzeWithTrace, he]
  · intro s e hs he
    simp [analyzeWithTrace, hs, he]
  · intro s k e hs hk he
    simp [analyzeWithTrace, hs, hk, he]
  · intro s k l e hs hk hl he
    simp [analyzeWithTrace, hs, hk, hl, he]
  · intro err herr
    rcases h1 : fetchSentiment svc [user_text] with e | s
    · simp [analyzeWithTrace, h1]
    rcases h2 : fetchKeyPhrases svc [user_text] with e | k
    · simp [analyzeWithTrace, h1, h2]
    rcases h3 : fetchLanguage svc [user_text] with e | l
    · simp [analyzeWithTrace, h1, h2, h3]
    rcases h4 : fetchEntities svc [user_text] with e | en
    · simp [analyzeWithTrace, h1, h2, h3, h4]
    · simp [analyzeWithTrace, h1, h2, h3, h4] at herr

/-- Witness for C1 at a concrete failing service: the sentiment call raises
401, the whole cycle is the fatal error, and only the sentiment call was
issued. -/
theorem fail_fast_steps_one_to_four_witness :
    analyzeWithTrace "hello" failSentimentService processPiiResult =
      (Except.error (fatalError "401 Unauthorized"),
        [⟨RemoteOp.sentiment, ["hello"]⟩]) :=
  (fail_fast_steps_one_to_four failSentimentService "hello" processPiiResult).1
    "401 Unauthorized" rfl

/-- Claim C2: when steps 1-4 succeed, a failure of the PII call does not
propagate: the cycle still produces a successful report, whose PII outcome
is `Unavailable` (the informational message), not a fatal error. -/
theorem pii_failure_isolated (svc : Service) (user_text : String)
    (s : SentimentResponse) (k : KeyPhrasesResponse) (l : LanguageResponse)
    (en : EntitiesResponse) (e : String)
    (hs : fetchSentiment svc [user_text] = Except.ok s)
    (hk : fetchKeyPhrases svc [user_text] = Except.ok k)
    (hl : fetchLanguage svc [user_text] = Except.ok l)
    (he : fetchEntities svc [user_text] = Except.ok en)
    (hp : fetchPii svc [user_text] = Except.error e) :
    ∃ report, (analyze user_text svc).1 = Except.ok report ∧
      report.pii = PiiOutcome.Unavailable := by
  simp only [analyze, analyzeWithTrace, hs, hk, hl, he, hp]
  exact ⟨_, rfl, rfl⟩

/-- Witness for C2: a concrete healthy service whose PII call raises still
yields a successful report with `pii = Unavailable`. -/
theorem pii_failure_isolated_witness :
    ∃ report, (analyze sampleText failPiiService).1 = Except.ok report ∧
      report.pii = PiiOutcome.Unavailable :=
  pii_failure_isolated failPiiService sampleText ⟨"positive", mockScores⟩
    ⟨["product"]⟩ ⟨⟨"English", "en", 99/100⟩⟩ ⟨[]⟩ "language not supported"
    rfl rfl rfl rfl rfl

/-- Claim C3: for a successful analysis with non-empty text against a
healthy service, the reported key-phrase and entity lists each have length
at most 10 and each is a prefix of the provider's returned list, preserving
the provider's order (they are exactly the first 10 elements, `[:10]`). -/
theorem truncated_lists_bounded_and_ordered (svc : Service) (user_text : String)
    (s : SentimentResponse) (k : KeyPhrasesResponse) (l : LanguageResponse)
    (en : EntitiesResponse) (p : PiiResponse)
    (hne : user_text ≠ "")
    (hs : fetchSentiment svc [user_text] = Except.ok s)
    (hk : fetchKeyPhrases svc [user_text] = Except.ok k)
    (hl : fetchLanguage svc [user_text] = Except.ok l)
    (he : fetchEntities svc [user_text] = Except.ok en)
    (hp : fetchPii svc [user_text] = Except.ok p) :
    ∃ report, (analyze user_text svc).1 = Except.ok report ∧
      report.keyPhrases.length ≤ 10 ∧ report.keyPhrases <+: k.key_phrases ∧
      report.entities.length ≤ 10 ∧ report.entities <+: en.entities := by
  simp only [analyze, analyzeWithTrace, hs, hk, hl, he, hp]
  exact ⟨_, rfl, List.length_take_le 10 _,
    ⟨_, List.take_append_drop 10 _⟩,
    List.length_take_le 10 _, ⟨_, List.take_append_drop 10 _⟩⟩

/-- Witness for C3 at the spec's example service. -/
theorem truncated_lists_bounded_and_ordered_witness :
    sampleText ≠ "" ∧
    (∃ report, (analyze sampleText mockService).1 = Except.ok report ∧
      report.keyPhrases.length ≤ 10 ∧ report.keyPhrases <+: ["product"] ∧
      report.entities.length ≤ 10 ∧ report.entities <+: []) :=
  ⟨by decide,
    truncated_lists_bounded_and_ordered mockService sampleText
      ⟨"positive", mockScores⟩ ⟨["product"]⟩ ⟨⟨"English", "en", 99/100⟩⟩ ⟨[]⟩
      ⟨[], sampleText⟩ (by decide) rfl rfl rfl rfl rfl⟩

/-- Claim C4 (amended): every call a cycle issues carries the batch of
exactly one document (the user text); the issued calls always form a prefix
of the fixed order sentiment, key phrases, language, entities, PII (each
call completing before the next is issued); and when steps 1-4 succeed the
cycle issues exactly the five operations in that order. -/
theorem sequential_single_document_calls (svc : Service) (user_text : String) :
    (∀ c ∈ (analyze user_text svc).2, c.documents = [user_text])
    ∧ (analyze user_text svc).2 <+: fiveCalls user_text
    ∧ (∀ s k l en, fetchSentiment svc [user_text] = Except.ok s →
        fetchKeyPhrases svc [user_text] = Except.ok k →
        fetchLanguage svc [user_text] = Except.ok l →
        fetchEntities svc [user_text] = Except.ok en →
        (analyze user_text svc).2 = fiveCalls user_text) := by
  refine ⟨?_, ?_, ?_⟩
  · intro c hc
    rcases h1 : fetchSentiment svc [user_text] with e | s
    · simp [analyze, analyzeWithTrace, h1] at hc
      simp [hc]
    rcases h2 : fetchKeyPhrases svc [user_text] with e | k
    · simp [analyze, analyzeWithTrace, h1, h2] at hc
      rcases hc with hc | hc <;> simp [hc]
    rcases h3 : fetchLanguage svc [user_text] with e | l
    · simp [analyze, analyzeWithTrace, h1, h2, h3] at hc
      rcases hc with hc | hc | hc <;> simp [hc]
    rcases h4 : fetchEntities svc [user_text] with e | en
    · simp [analyze, analyzeWithTrace, h1, h2, h3, h4] at hc
      rcases hc with hc | hc | hc | hc <;> simp [hc]
    · simp [analyze, analyzeWithTrace, h1, h2, h3, h4] at hc
      rcases hc with hc | hc | hc | hc | hc <;> simp [hc]
  · rcases h1 : fetchSentiment svc [user_text] with e | s
    · refine ⟨[⟨RemoteOp.keyPhrases, [user_text]⟩, ⟨RemoteOp.language, [user_text]⟩,
        ⟨RemoteOp.entities, [user_text]⟩, ⟨RemoteOp.pii, [user_text]⟩], ?_⟩
      simp [analyze, analyzeWithTrace, h1, fiveCalls]
    rcases h2 : fetchKeyPhrases svc [user_text] with e | k
    · refine ⟨[⟨RemoteOp.language, [user_text]⟩,
        ⟨RemoteOp.entities, [user_text]⟩, ⟨RemoteOp.pii, [user_text]⟩], ?_⟩
      simp [analyze, analyzeWithTrace, h1, h2, fiveCalls]
    rcases h3 : fetchLanguage svc [user_text] with e | l
    · refine ⟨[⟨RemoteOp.entities, [user_text]⟩, ⟨RemoteOp.pii, [user_text]⟩], ?_⟩
      simp [analyze, analyzeWithTrace, h1, h2, h3, fiveCalls]
    rcases h4 : fetchEntities svc [user_text] with e | en
    · refine ⟨[⟨RemoteOp.pii, [user_text]⟩], ?_⟩
      simp [analyze, analyzeWithTrace, h1, h2, h3, h4, fiveCalls]
    · refine ⟨[], ?_⟩
      simp [analyze, analyzeWithTrace, h1, h2, h3, h4, fiveCalls]
  · intro s k l en hs hk hl he
    simp [analyze, analyzeWithTrace, hs, hk, hl, he, fiveCalls]

/-- Witness for C4's conditional part at the spec's example service: all
five operations, in order, each on the single-document batch. -/
theorem sequential_single_document_calls_witness :
    (analyze sampleText mockService).2 = fiveCalls sampleText :=
  (sequential_single_document_calls mockService sampleText).2.2
    ⟨"positive", mockScores⟩ ⟨["product"]⟩ ⟨⟨"English", "en", 99/100⟩⟩ ⟨[]⟩
    rfl rfl rfl rfl

/-- Counterexample to C4 as stated: an analysis cycle in which the sentiment
call raises invokes exactly one remote operation, not five. -/
theorem exactly_five_calls_counterexample :
    (analyze "hello" failSentimentService).2 ≠ fiveCalls "hello" ∧
    ((analyze "hello" failSentimentService).2).length = 1 := by
  constructor
  · decide
  · rfl

/-- Claim C5: when the PII call succeeds and returns an empty entity list,
the outcome is the distinct valid state `NoneFound` ("no personal
information detected"), different from the `Unavailable` state of a failed
PII call. -/
theorem empty_pii_reported_as_none (svc : Service) (user_text : String)
    (s : SentimentResponse) (k : KeyPhrasesResponse) (l : LanguageResponse)
    (en : EntitiesResponse) (p : PiiResponse)
    (hs : fetchSentiment svc [user_text] = Except.ok s)
    (hk : fetchKeyPhrases svc [user_text] = Except.ok k)
    (hl : fetchLanguage svc [user_text] = Except.ok l)
    (he : fetchEntities svc [user_text] = Except.ok en)
    (hp : fetchPii svc [user_text] = Except.ok p)
    (hemp : p.entities = []) :
    ∃ report, (analyze user_text svc).1 = Except.ok report ∧
      report.pii = PiiOutcome.NoneFound ∧
      PiiOutcome.NoneFound ≠ PiiOutcome.Unavailable := by
  simp only [analyze, analyzeWithTrace, hs, hk, hl, he, hp, processPiiResult, hemp]
  exact ⟨_, rfl, rfl, by decide⟩

/-- Witness for C5 at the spec's example service (empty PII list). -/
theorem empty_pii_reported_as_none_witness :
    ∃ report, (analyze sampleText mockService).1 = Except.ok report ∧
      report.pii = PiiOutcome.NoneFound ∧
      PiiOutcome.NoneFound ≠ PiiOutcome.Unavailable :=
  empty_pii_reported_as_none mockService sampleText ⟨"positive", mockScores⟩
    ⟨["product"]⟩ ⟨⟨"English", "en", 99/100⟩⟩ ⟨[]⟩ ⟨[], sampleText⟩
    rfl rfl rfl rfl rfl rfl

/-- Claim C6: the requesting phase is entered only when the user text, the
endpoint, and the API key are all non-empty; if any is absent the cycle
stays `Idle` and no remote call is issued. -/
theorem idle_without_text_or_credentials (user_text endpoint api_key : String)
    (svc : Service) :
    ((user_text = "" ∨ endpoint = "" ∨ api_key = "") →
      (∃ msg, (runCycle user_text endpoint api_key svc).1 = CycleOutcome.Idle msg)
        ∧ (runCycle user_text endpoint api_key svc).2 = [])
    ∧ (∀ result,
        (runCycle user_text endpoint api_key svc).1 = CycleOutcome.Finished result →
        user_text ≠ "" ∧ endpoint ≠ "" ∧ api_key ≠ "") := by
  constructor
  · intro h
    by_cases h1 : user_text = ""
    · refine ⟨⟨"👈 Enter text to analyze", ?_⟩, ?_⟩ <;> simp [runCycle, h1]
    · have h3 : endpoint = "" ∨ api_key = "" := by tauto
      refine ⟨⟨"⚠️ Please enter Azure credentials in the sidebar", ?_⟩, ?_⟩ <;>
        rcases h3 with h3 | h3 <;> simp [runCycle, h1, h3]
  · intro result hres
    by_cases h1 : user_text = ""
    · simp [runCycle, h1] at hres
    by_cases h2 : endpoint = ""
    · simp [runCycle, h1, h2] at hres
    by_cases h3 : api_key = ""
    · simp [runCycle, h1, h2, h3] at hres
    · exact ⟨h1, h2, h3⟩

/-- Witness for C6: with an empty API key nothing is requested and the
cycle is idle. -/
theorem idle_without_text_or_credentials_witness :
    (∃ msg, (runCycle "some text" "https://endpoint" "" mockService).1 =
      CycleOutcome.Idle msg)
    ∧ (runCycle "some text" "https://endpoint" "" mockService).2 = [] :=
  (idle_without_text_or_credentials "some text" "https://endpoint" "" mockService).1
    (Or.inr (Or.inr rfl))

/-- Claim C7 (amended): the orchestrator copies the provider's sentiment
label and confidence scores into the report verbatim, with no local
clamping, validation, or derivation; hence whenever the provider's response
satisfies the declared interface invariants (each score in [0,1], label one
of the four enum values), so does the successful report's sentiment. -/
theorem sentiment_values_preserved (svc : Service) (user_text : String)
    (s : SentimentResponse) (k : KeyPhrasesResponse) (l : LanguageResponse)
    (en : EntitiesResponse)
    (hs : fetchSentiment svc [user_text] = Except.ok s)
    (hk : fetchKeyPhrases svc [user_text] = Except.ok k)
    (hl : fetchLanguage svc [user_text] = Except.ok l)
    (he : fetchEntities svc [user_text] = Except.ok en)
    (hpos : 0 ≤ s.confidence_scores.positive ∧ s.confidence_scores.positive ≤ 1)
    (hneg : 0 ≤ s.confidence_scores.negative ∧ s.confidence_scores.negative ≤ 1)
    (hneu : 0 ≤ s.confidence_scores.neutral ∧ s.confidence_scores.neutral ≤ 1)
    (hlab : s.sentiment = "positive" ∨ s.sentiment = "negative" ∨
      s.sentiment = "neutral" ∨ s.sentiment = "mixed") :
    ∃ report, (analyze user_text svc).1 = Except.ok report ∧
      (0 ≤ report.scores.positive ∧ report.scores.positive ≤ 1) ∧
      (0 ≤ report.scores.negative ∧ report.scores.negative ≤ 1) ∧
      (0 ≤ report.scores.neutral ∧ report.scores.neutral ≤ 1) ∧
      (report.sentiment_label = "positive" ∨ report.sentiment_label = "negative" ∨
       report.sentiment_label = "neutral" ∨ report.sentiment_label = "mixed") := by
  simp only [analyze, analyzeWithTrace, hs, hk, hl, he]
  exact ⟨_, rfl, hpos, hneg, hneu, hlab⟩

/-- Witness for the amended C7 at the spec's example service. -/
theorem sentiment_values_preserved_witness :
    ∃ report, (analyze sampleText mockService).1 = Except.ok report ∧
      (0 ≤ report.scores.positive ∧ report.scores.positive ≤ 1) ∧
      (0 ≤ report.scores.negative ∧ report.scores.negative ≤ 1) ∧
      (0 ≤ report.scores.neutral ∧ report.scores.neutral ≤ 1) ∧
      (report.sentiment_label = "positive" ∨ report.sentiment_label = "negative" ∨
       report.sentiment_label = "neutral" ∨ report.sentiment_label = "mixed") :=
  sentiment_values_preserved mockService sampleText ⟨"positive", mockScores⟩
    ⟨["product"]⟩ ⟨⟨"English", "en", 99/100⟩⟩ ⟨[]⟩ rfl rfl rfl rfl
    (by norm_num [mockScores]) (by norm_num [mockScores]) (by norm_num [mockScores])
    (Or.inl rfl)

/-- Counterexample to C7 as stated: the code performs no validation of the
provider's sentiment values, so against a service returning an out-of-range
score and a label outside the four enum values, the analysis still succeeds
and the successful report carries a negative score below 0, a positive score
above 1, and a label that is none of the four values. -/
theorem sentiment_wellformedness_counterexample :
    ∃ report, (analyze "hello" badScoresService).1 = Except.ok report ∧
      report.scores.negative < 0 ∧ 1 < report.scores.positive ∧
      report.sentiment_label ≠ "positive" ∧ report.sentiment_label ≠ "negative" ∧
      report.sentiment_label ≠ "neutral" ∧ report.sentiment_label ≠ "mixed" := by
  refine ⟨_, rfl, ?_, ?_, ?_, ?_, ?_, ?_⟩
  · norm_num
  · norm_num
  · decide
  · decide
  · decide
  · decide

/-- Claim C8: two independent invocations of the same request against the
same deterministic service produce structurally identical outcomes. The
source constructs the client and every result object fresh inside the
analysis handler and mutates no state that survives a cycle, so the
embedding of a cycle is a pure function of the request and the service, and
the two runs of `runTwoCycles` coincide definitionally. -/
theorem independent_invocations_identical (user_text endpoint api_key : String)
    (svc : Service) :
    (runTwoCycles user_text endpoint api_key svc).1 =
      (runTwoCycles user_text endpoint api_key svc).2 := rfl

/-- Claim C9: a provider sentiment label outside the four known values does
not fail the sentiment step: the analysis still succeeds, the label is
reported as returned, and the display heading falls back to the default
neutral emoji of the total dictionary lookup
`sentiment_emoji.get(sentiment, '😐')`. -/
theorem unknown_sentiment_label_is_safe (svc : Service) (user_text : String)
    (s : SentimentResponse) (k : KeyPhrasesResponse) (l : LanguageResponse)
    (en : EntitiesResponse)
    (hs : fetchSentiment svc [user_text] = Except.ok s)
    (hk : fetchKeyPhrases svc [user_text] = Except.ok k)
    (hl : fetchLanguage svc [user_text] = Except.ok l)
    (he : fetchEntities svc [user_text] = Except.ok en)
    (h1 : s.sentiment ≠ "positive") (h2 : s.sentiment ≠ "negative")
    (h3 : s.sentiment ≠ "neutral") (h4 : s.sentiment ≠ "mixed") :
    sentiment_emoji s.sentiment = "😐" ∧
    ∃ report, (analyze user_text svc).1 = Except.ok report ∧
      report.sentiment_label = s.sentiment ∧
      report.sentiment_display = "### 😐 " ++ s.sentiment.toUpper := by
  have hemoji : sentiment_emoji s.sentiment = "😐" := by
    simp [sentiment_emoji, h1, h2, h3, h4]
  refine ⟨hemoji, ?_⟩
  simp only [analyze, analyzeWithTrace, hs, hk, hl, he, hemoji]
  exact ⟨_, rfl, rfl, rfl⟩

/-- Witness for C9 at a service returning the unknown label "ecstatic". -/
theorem unknown_sentiment_label_is_safe_witness :
    sentiment_emoji "ecstatic" = "😐" ∧
    ∃ report, (analyze sampleText unknownLabelService).1 = Except.ok report ∧
      report.sentiment_label = "ecstatic" ∧
      report.sentiment_display = "### 😐 " ++ "ecstatic".toUpper :=
  unknown_sentiment_label_is_safe unknownLabelService sampleText
    ⟨"ecstatic", mockScores⟩ ⟨["product"]⟩ ⟨⟨"English", "en", 99/100⟩⟩ ⟨[]⟩
    rfl rfl rfl rfl (by decide) (by decide) (by decide) (by decide)

/-- Claim C10: the PII step's bare exception handler covers not only the
remote PII fetch but also the processing and display of a successfully
fetched response; an exception raised there (for the Python code, e.g. a
malformed field) also resolves to `Unavailable`, so the `Unavailable`
outcome can mask a successful remote detection. -/
theorem pii_handler_covers_processing (svc : Service) (user_text : String)
    (pp : PiiResponse → Except String PiiOutcome)
    (s : SentimentResponse) (k : KeyPhrasesResponse) (l : LanguageResponse)
    (en : EntitiesResponse) (p : PiiResponse) (e : String)
    (hs : fetchSentiment svc [user_text] = Except.ok s)
    (hk : fetchKeyPhrases svc [user_text] = Except.ok k)
    (hl : fetchLanguage svc [user_text] = Except.ok l)
    (he : fetchEntities svc [user_text] = Except.ok en)
    (hp : fetchPii svc [user_text] = Except.ok p)
    (hfail : pp p = Except.error e) :
    ∃ report, (analyzeWithTrace user_text svc pp).1 = Except.ok report ∧
      report.pii = PiiOutcome.Unavailable := by
  simp only [analyzeWithTrace, hs, hk, hl, he, hp, hfail]
  exact ⟨_, rfl, rfl⟩

/-- Witness for C10: the remote PII fetch succeeds with a non-empty
detection, the processing of that response raises, and the cycle reports
`Unavailable` — masking the successful detection. -/
theorem pii_handler_covers_processing_witness :
    fetchPii piiDetectedService [sampleText] =
      Except.ok ⟨[⟨"John Doe", "Person"⟩], "******** bought a product"⟩ ∧
    ∃ report,
      (analyzeWithTrace sampleText piiDetectedService
        (fun _ => Except.error "TypeError")).1 = Except.ok report ∧
      report.pii = PiiOutcome.Unavailable :=
  ⟨rfl,
    pii_handler_covers_processing piiDetectedService sampleText
      (fun _ => Except.error "TypeError") ⟨"positive", mockScores⟩
      ⟨["product"]⟩ ⟨⟨"English", "en", 99/100⟩⟩ ⟨[]⟩
      ⟨[⟨"John Doe", "Person"⟩], "******** bought a product"⟩ "TypeError"
      rfl rfl rfl rfl rfl rfl⟩

end TextAnalysis
